import Mathlib

/-!
Shallow embedding of the DanceChat conversational backend (src/main.py) and
verification of its specification claims.

Modelling conventions:
* A `Turn` is the dict pushed into the in-memory cache (main.py lines 224-227).
* A `Row` is one row of the sqlite `conversations` table; the store is the
  list of rows in insertion (rowid / timestamp) order, the order the data
  model declares total for each session.
* The in-memory cache `conversations` (line 139) is a Python dict, embedded
  as a function from session id to an optional list of turns.
* The external Gemini call is an oracle parameter: `gen : String → String`
  for the blocking call, `fragsOf : String → List String` for the streaming
  call (the fragment texts of the streamed chunks; a chunk whose `text` is
  falsy is represented by the empty string).
* A possible failure of the sqlite write (caught at lines 168-170) is an
  oracle Boolean `dbOk` per call.
* Python `str.strip()` is embedded as `pyStrip` (drop leading and trailing
  whitespace characters), and `len` on `str` as `String.length` (both count
  characters).
-/

namespace DanceChat

/-- One conversation turn as cached in memory (main.py lines 224-227):
the dict with keys user and bot. -/
structure Turn where
  user : String
  bot : String
deriving DecidableEq, Repr

/-- One row of the `conversations` table (main.py lines 101-109), with the
timestamp abstracted into the position in the insertion-ordered list. -/
structure Row where
  session_id : String
  user_message : String
  bot_message : String
deriving DecidableEq, Repr

/-- Python `str.strip()` with no argument (main.py lines 193 and 250):
remove leading and trailing whitespace characters. -/
def pyStrip (s : String) : String :=
  String.mk (((s.data.dropWhile Char.isWhitespace).reverse.dropWhile Char.isWhitespace).reverse)

/-- The in-memory cache `conversations` (main.py line 139): a dict from
session id to the list of cached turns. -/
def Cache : Type := String → Option (List Turn)

/-- Combined mutable state of the process: the memory cache and the sqlite
`conversations` table. -/
structure St where
  cache : Cache
  store : List Row

/-- The initial state: empty dict, empty table. -/
def initSt : St := ⟨fun _ => none, []⟩

/-- The turns of one session in the durable store, in insertion order
(the rows selected by `WHERE session_id = ?`, mapped to user/bot pairs). -/
def sessionTurns (store : List Row) (sid : String) : List Turn :=
  (store.filter (fun r => r.session_id == sid)).map
    (fun r => Turn.mk r.user_message r.bot_message)

/-- `save_conversation_to_db` (main.py lines 157-170): inserts one row and
returns `lastrowid`; on a database failure the exception is caught, logged,
and `None` is returned with the table unchanged. -/
def save_conversation_to_db (dbOk : Bool) (store : List Row)
    (session_id user_message bot_message : String) : Option Nat × List Row :=
  if dbOk then
    (some (store.length + 1), store ++ [Row.mk session_id user_message bot_message])
  else
    (none, store)

/-- `get_conversation_history` (main.py lines 172-188): select the rows of the
session `ORDER BY timestamp DESC LIMIT limit`, then reverse in Python, giving
the most recent `limit` turns oldest-first. -/
def get_conversation_history (store : List Row) (session_id : String)
    (limit : Nat) : List Turn :=
  (((sessionTurns store session_id).reverse).take limit).reverse

/-- `request.session_id or "default"` (main.py lines 194 and 251): a missing
field is defaulted to "default" by pydantic, a JSON null arrives as `none`,
and the empty string is falsy in Python, so all three collapse to
"default". -/
def effectiveSessionId : Option String → String
  | none => "default"
  | some s => if s = "" then "default" else s

/-- The Python slice `[-10:]` (main.py line 206): the last ten elements of a
list, or the whole list when it has at most ten. -/
def last10 (l : List Turn) : List Turn := l.drop (l.length - 10)

/-- The two-line rendering of one past turn inside the prompt
(main.py line 214). -/
def renderTurn (t : Turn) : String :=
  "사용자: " ++ t.user ++ "\n승연: " ++ t.bot ++ "\n"

/-- The prompt assembly loop (main.py lines 212-215): persona text, the
history header, one rendered line pair per recent turn, then the current
user message and the trailing cue. -/
def buildContext (persona : String) (recent : List Turn)
    (userMessage : String) : String :=
  (recent.foldl (fun ctx t => ctx ++ renderTurn t) (persona ++ "\n\n이전 대화:\n"))
    ++ "\n현재 사용자 메시지: " ++ userMessage ++ "\n승연:"

/-- Cache lookup or hydration (main.py lines 205-209): a cached session
contributes its last ten turns and leaves the dict unchanged; otherwise the
last ten turns are read from the store and installed in the dict (even when
empty). Returns the recent turns and the updated dict. -/
def hydrate (st : St) (sessionId : String) : List Turn × Cache :=
  match st.cache sessionId with
  | some conv => (last10 conv, st.cache)
  | none =>
      let h := get_conversation_history st.store sessionId 10
      (h, fun k => if k = sessionId then some h else st.cache k)

/-- The cache update (main.py lines 222-227): create the entry as the empty
list when absent, then append the completed turn. -/
def cacheAppend (c : Cache) (sessionId : String) (t : Turn) : Cache :=
  fun k => if k = sessionId then some ((c sessionId).getD [] ++ [t]) else c k

/-- Outcome of the `/chat` endpoint: an HTTP 400 from a validation failure,
or the success payload. -/
inductive ChatResult where
  | badRequest (detail : String)
  | ok (message : String)
deriving DecidableEq, Repr

/-- True exactly on the HTTP 400 outcomes. -/
def ChatResult.isBadRequest : ChatResult → Bool
  | ChatResult.badRequest _ => true
  | ChatResult.ok _ => false

/-- The `/chat` endpoint (main.py lines 190-234): strip, validate, hydrate,
assemble the context, call the model, append to cache, best-effort insert
into the store, and answer with the generated message. -/
def chatStep (persona : String) (gen : String → String) (dbOk : Bool)
    (msg : String) (sid? : Option String) (st : St) : ChatResult × St :=
  let userMessage := pyStrip msg
  let sessionId := effectiveSessionId sid?
  if userMessage = "" then (ChatResult.badRequest "메시지가 비어있습니다.", st)
  else if 500 < userMessage.length then (ChatResult.badRequest "메시지가 너무 깁니다.", st)
  else
    let hyd := hydrate st sessionId
    let context := buildContext persona hyd.1 userMessage
    let botMessage := gen context
    let cache2 := cacheAppend hyd.2 sessionId (Turn.mk userMessage botMessage)
    let store2 := (save_conversation_to_db dbOk st.store sessionId userMessage botMessage).2
    (ChatResult.ok botMessage, St.mk cache2 store2)

/-- One server-sent event of the `/chat/stream` endpoint, abstracting the
`data: <json>` lines (main.py lines 255, 259, 278, 288, 291, 308). -/
inductive SseEvent where
  | preError (msg : String)
  | start
  | chunk (content : String)
  | complete (full : String)
  | error (msg : String)
deriving DecidableEq, Repr

/-- The streaming loop (main.py lines 283-288): for each chunk whose text is
truthy, accumulate it into the full message and emit one chunk event. -/
def streamLoop (frags : List String) : List SseEvent × String :=
  frags.foldl
    (fun acc c => if c = "" then acc else (acc.1 ++ [SseEvent.chunk c], acc.2 ++ c))
    ([], "")

/-- The `/chat/stream` endpoint generator (main.py lines 248-308): validation
failures yield a single pre-stream error line; otherwise the context is
assembled exactly as in `/chat`, a start event is emitted, the fragments are
forwarded, a complete event carries the accumulated text, and then cache and
store are updated as in `/chat`. -/
def streamStep (persona : String) (fragsOf : String → List String) (dbOk : Bool)
    (msg : String) (sid? : Option String) (st : St) : List SseEvent × St :=
  let userMessage := pyStrip msg
  let sessionId := effectiveSessionId sid?
  if userMessage = "" then ([SseEvent.preError "메시지가 비어있습니다."], st)
  else if 500 < userMessage.length then ([SseEvent.preError "메시지가 너무 깁니다."], st)
  else
    let hyd := hydrate st sessionId
    let context := buildContext persona hyd.1 userMessage
    let frags := fragsOf context
    let looped := streamLoop frags
    let cache2 := cacheAppend hyd.2 sessionId (Turn.mk userMessage looped.2)
    let store2 := (save_conversation_to_db dbOk st.store sessionId userMessage looped.2).2
    (SseEvent.start :: looped.1 ++ [SseEvent.complete looped.2], St.mk cache2 store2)

/-- The `/reset` endpoint (main.py lines 338-348): delete the cache entry of
the session when present; the store is untouched. -/
def resetStep (sessionId : String) (st : St) : St :=
  match st.cache sessionId with
  | some _ => St.mk (fun k => if k = sessionId then none else st.cache k) st.store
  | none => st

/-- The outcome of reading `specific_character.md` (main.py lines 47-53):
the file content on success, or one of the two caught exception classes. -/
inductive ReadOutcome where
  | ok (content : String)
  | fileNotFound
  | readError (e : String)
deriving DecidableEq, Repr

/-- `get_default_prompt` (main.py lines 63-90): the built-in fallback persona
text. -/
def get_default_prompt : String := "
당신은 곽승연입니다.

## 기본 정보
- 이름: 곽승연
- 나이: 21세
- 전공: 자유전공학부
- 거주지: 서울 관악구
- 주요 활동: 서울대 댄스동아리 (가장 중요한 정체성)

## 성격 특성
- 핵심 성격: 열정적, 친근함, 약간의 4차원, 진솔함
- 말투: 친근하고 활발함, 댄스 용어를 자연스럽게 사용
- 관심사: K-pop 댄스, 안무 창작, 캠퍼스 생활, 맛집 탐방
- 가치관: 열정과 노력, 함께하는 즐거움, 춤을 통한 자기표현

## 대화 규칙 및 응답 가이드라인

### 춤/댄스동아리 관련 질문 (상세 응답)
- 춤, 댄스, 안무, 동아리 활동에 대한 질문
→ 이런 주제에는 열정적이고 구체적으로 답변하세요.

### 춤과 무관한 전문적 주제 (간단한 응답)
- AI, 프로그래밍, 학술적 내용 등
→ \"잘 모르겠어요 ㅠㅠ 저는 춤에 더 관심이 많거든요!\" 같은 식으로 간단히 답변하세요.
"

/-- `load_character_prompt` (main.py lines 44-61): return the file content on
a successful read; fall back to the default prompt when the file is missing
or any other exception is raised. Totality of this function is the embedding
of the fact that every exception of the read is caught. -/
def load_character_prompt : ReadOutcome → String
  | ReadOutcome.ok content => content
  | ReadOutcome.fileNotFound => get_default_prompt
  | ReadOutcome.readError _ => get_default_prompt

/-- One client operation against the server, with its oracles. -/
inductive Op where
  | chat (msg : String) (sid? : Option String) (gen : String → String) (dbOk : Bool)
  | stream (msg : String) (sid? : Option String) (fragsOf : String → List String) (dbOk : Bool)
  | reset (sid : String)

/-- The state transition of one operation (the response is discarded). -/
def applyOp (persona : String) (st : St) : Op → St
  | Op.chat msg sid? gen dbOk => (chatStep persona gen dbOk msg sid? st).2
  | Op.stream msg sid? fragsOf dbOk => (streamStep persona fragsOf dbOk msg sid? st).2
  | Op.reset sid => resetStep sid st

/-- The state reached from a fresh process by a sequence of operations. -/
def runOps (persona : String) (ops : List Op) : St :=
  ops.foldl (applyOp persona) initSt

/-- The last-10 window of the cache entry of a session (empty when the entry
is absent). -/
def windowOf (st : St) (sid : String) : List Turn :=
  last10 ((st.cache sid).getD [])

/-- Claimed invariant C7: the cache window of a session is empty or a suffix
of the full turn sequence of that session in the durable store. -/
def cacheWindowOk (st : St) (sid : String) : Prop :=
  windowOf st sid = [] ∨ windowOf st sid <:+ sessionTurns st.store sid

/-- An operation whose durable-store write (if any) succeeds. -/
def opDbOk : Op → Prop
  | Op.chat _ _ _ dbOk => dbOk = true
  | Op.stream _ _ _ dbOk => dbOk = true
  | Op.reset _ => True

/-- Inductive invariant backing C7: every hydrated cache entry (not only its
window) is a suffix of the turn sequence of its session in the store. -/
def Inv (st : St) : Prop :=
  ∀ s l, st.cache s = some l → l <:+ sessionTurns st.store s

/-- Spec-side prompt description for C6, following the words of section 4.4:
persona text, a literal history header, then the two-line rendering of each
turn of the last-10 window oldest-to-newest, then the current user message
and the trailing cue. -/
def specPrompt (persona : String) (history : List Turn) (userMessage : String) : String :=
  persona ++ "\n\n이전 대화:\n" ++ String.join ((last10 history).map renderTurn)
    ++ "\n현재 사용자 메시지: " ++ userMessage ++ "\n승연:"

/-- Spec-side event sequence for C2, following the words of the claim: one
start event, one chunk event per fragment, one complete event carrying the
concatenation of all fragments. -/
def claimedStreamEvents (frags : List String) : List SseEvent :=
  SseEvent.start :: frags.map SseEvent.chunk
    ++ [SseEvent.complete (String.join frags)]

end DanceChat

namespace DanceChat

theorem reverse_take_reverse {α : Type*} (l : List α) (k : Nat) :
    (l.reverse.take k).reverse = l.drop (l.length - k) := by
  rw [← List.rtake_eq_reverse_take_reverse, List.rtake]

theorem gch_eq_drop (store : List Row) (sid : String) (limit : Nat) :
    get_conversation_history store sid limit
      = (sessionTurns store sid).drop ((sessionTurns store sid).length - limit) := by
  unfold get_conversation_history
  exact reverse_take_reverse _ _

theorem string_foldl_append (l : List String) :
    ∀ a : String, l.foldl (fun r s => r ++ s) a = a ++ String.join l := by
  induction l with
  | nil => intro a; simp [String.join]
  | cons x xs ih =>
      intro a
      calc (x :: xs).foldl (fun r s => r ++ s) a
          = xs.foldl (fun r s => r ++ s) (a ++ x) := rfl
        _ = (a ++ x) ++ String.join xs := ih (a ++ x)
        _ = a ++ (x ++ String.join xs) := String.append_assoc a x (String.join xs)
        _ = a ++ String.join (x :: xs) := by
              rw [show String.join (x :: xs) = xs.foldl (fun r s => r ++ s) ("" ++ x) from rfl,
                ih ("" ++ x), String.empty_append]

theorem string_join_cons (x : String) (xs : List String) :
    String.join (x :: xs) = x ++ String.join xs := by
  show xs.foldl (fun r s => r ++ s) ("" ++ x) = x ++ String.join xs
  rw [string_foldl_append xs ("" ++ x), String.empty_append]

theorem buildContext_eq_join (l : List Turn) :
    ∀ init : String, l.foldl (fun ctx t => ctx ++ renderTurn t) init
      = init ++ String.join (l.map renderTurn) := by
  induction l with
  | nil => intro init; simp [String.join]
  | cons t ts ih =>
      intro init
      calc (t :: ts).foldl (fun ctx x => ctx ++ renderTurn x) init
          = ts.foldl (fun ctx x => ctx ++ renderTurn x) (init ++ renderTurn t) := rfl
        _ = (init ++ renderTurn t) ++ String.join (ts.map renderTurn) := ih _
        _ = init ++ (renderTurn t ++ String.join (ts.map renderTurn)) :=
              String.append_assoc init (renderTurn t) (String.join (ts.map renderTurn))
        _ = init ++ String.join ((t :: ts).map renderTurn) := by rw [← string_join_cons]; rfl

theorem chatStep_congr_sid (p : String) (gen : String → String) (db : Bool) (msg : String)
    (sid1 sid2 : Option String) (st : St)
    (h : effectiveSessionId sid1 = effectiveSessionId sid2) :
    chatStep p gen db msg sid1 st = chatStep p gen db msg sid2 st := by
  simp only [chatStep]; rw [h]

theorem streamStep_congr_sid (p : String) (fragsOf : String → List String) (db : Bool)
    (msg : String) (sid1 sid2 : Option String) (st : St)
    (h : effectiveSessionId sid1 = effectiveSessionId sid2) :
    streamStep p fragsOf db msg sid1 st = streamStep p fragsOf db msg sid2 st := by
  simp only [streamStep]; rw [h]

end DanceChat

namespace DanceChat

theorem sessionTurns_append_self (store : List Row) (sid u b : String) :
    sessionTurns (store ++ [Row.mk sid u b]) sid
      = sessionTurns store sid ++ [Turn.mk u b] := by
  simp [sessionTurns, List.filter_append]

theorem sessionTurns_append_ne (store : List Row) (s sid u b : String) (h : s ≠ sid) :
    sessionTurns (store ++ [Row.mk sid u b]) s = sessionTurns store s := by
  simp [sessionTurns, List.filter_append, Ne.symm h]

theorem suffix_append_right {α : Type*} {l s : List α} (t : List α) (h : l <:+ s) :
    l ++ t <:+ s ++ t := by
  obtain ⟨u, hu⟩ := h
  exact ⟨u, by rw [← List.append_assoc, hu]⟩

theorem gch_suffix (store : List Row) (sid : String) (limit : Nat) :
    get_conversation_history store sid limit <:+ sessionTurns store sid := by
  rw [gch_eq_drop]
  exact List.drop_suffix _ _

theorem hydrate_cache_of_ne (st : St) (sid s : String) (h : s ≠ sid) :
    (hydrate st sid).2 s = st.cache s := by
  unfold hydrate
  cases hc : st.cache sid <;> simp [hc, h]

theorem hydrate_cache_self (st : St) (sid : String) (hInv : Inv st) :
    ∀ l, (hydrate st sid).2 sid = some l → l <:+ sessionTurns st.store sid := by
  intro l hl
  unfold hydrate at hl
  cases hc : st.cache sid with
  | some conv =>
      rw [hc] at hl
      simp only at hl
      exact hInv sid l hl
  | none =>
      rw [hc] at hl
      simp only [if_pos] at hl
      have hgl : get_conversation_history st.store sid 10 = l := by simpa using hl
      rw [← hgl]
      exact gch_suffix st.store sid 10

end DanceChat

namespace DanceChat

theorem inv_init : Inv initSt := by
  intro s l hl
  simp [initSt] at hl

theorem inv_update (st : St) (cache1 : Cache) (sid u b : String)
    (hne : ∀ s, s ≠ sid → cache1 s = st.cache s)
    (hself : ∀ l, cache1 sid = some l → l <:+ sessionTurns st.store sid)
    (hInv : Inv st) :
    Inv (St.mk (cacheAppend cache1 sid (Turn.mk u b)) (st.store ++ [Row.mk sid u b])) := by
  intro s l hl
  by_cases hs : s = sid
  · subst hs
    simp only [cacheAppend, if_pos rfl] at hl
    have hl2 : (cache1 s).getD [] ++ [Turn.mk u b] = l := by simpa using hl
    rw [← hl2, sessionTurns_append_self]
    apply suffix_append_right
    cases hc : cache1 s with
    | none => simp
    | some l0 => simpa using hself l0 hc
  · simp only [cacheAppend, if_neg hs] at hl
    rw [sessionTurns_append_ne st.store s sid u b hs]
    exact hInv s l (by rw [← hne s hs]; exact hl)

theorem chatStep_valid_eq (p : String) (gen : String → String) (db : Bool) (msg : String)
    (sid? : Option String) (st : St)
    (h1 : pyStrip msg ≠ "") (h2 : (pyStrip msg).length ≤ 500) :
    chatStep p gen db msg sid? st =
      (ChatResult.ok
          (gen (buildContext p (hydrate st (effectiveSessionId sid?)).1 (pyStrip msg))),
       St.mk
         (cacheAppend (hydrate st (effectiveSessionId sid?)).2 (effectiveSessionId sid?)
           (Turn.mk (pyStrip msg)
             (gen (buildContext p (hydrate st (effectiveSessionId sid?)).1 (pyStrip msg)))))
         ((save_conversation_to_db db st.store (effectiveSessionId sid?) (pyStrip msg)
             (gen (buildContext p (hydrate st (effectiveSessionId sid?)).1 (pyStrip msg)))).2)) := by
  simp only [chatStep]
  rw [if_neg h1, if_neg (Nat.not_lt.mpr h2)]

theorem streamStep_valid_eq (p : String) (fragsOf : String → List String) (db : Bool)
    (msg : String) (sid? : Option String) (st : St)
    (h1 : pyStrip msg ≠ "") (h2 : (pyStrip msg).length ≤ 500) :
    streamStep p fragsOf db msg sid? st =
      (SseEvent.start ::
          (streamLoop (fragsOf (buildContext p (hydrate st (effectiveSessionId sid?)).1 (pyStrip msg)))).1
        ++ [SseEvent.complete
            (streamLoop (fragsOf (buildContext p (hydrate st (effectiveSessionId sid?)).1 (pyStrip msg)))).2],
       St.mk
         (cacheAppend (hydrate st (effectiveSessionId sid?)).2 (effectiveSessionId sid?)
           (Turn.mk (pyStrip msg)
             (streamLoop (fragsOf (buildContext p (hydrate st (effectiveSessionId sid?)).1 (pyStrip msg)))).2))
         ((save_conversation_to_db db st.store (effectiveSessionId sid?) (pyStrip msg)
             (streamLoop (fragsOf (buildContext p (hydrate st (effectiveSessionId sid?)).1 (pyStrip msg)))).2).2)) := by
  simp only [streamStep]
  rw [if_neg h1, if_neg (Nat.not_lt.mpr h2)]

theorem inv_chat (p : String) (gen : String → String) (msg : String) (sid? : Option String)
    (st : St) (hInv : Inv st) : Inv (chatStep p gen true msg sid? st).2 := by
  by_cases h1 : pyStrip msg = ""
  · simpa [chatStep, h1] using hInv
  · by_cases h2 : 500 < (pyStrip msg).length
    · simpa [chatStep, h1, h2] using hInv
    · rw [chatStep_valid_eq p gen true msg sid? st h1 (Nat.not_lt.mp h2)]
      simp only [save_conversation_to_db, if_pos]
      exact inv_update st (hydrate st (effectiveSessionId sid?)).2 _ _ _
        (fun s hs => hydrate_cache_of_ne st _ s hs)
        (hydrate_cache_self st _ hInv) hInv

theorem inv_stream (p : String) (fragsOf : String → List String) (msg : String)
    (sid? : Option String) (st : St) (hInv : Inv st) :
    Inv (streamStep p fragsOf true msg sid? st).2 := by
  by_cases h1 : pyStrip msg = ""
  · simpa [streamStep, h1] using hInv
  · by_cases h2 : 500 < (pyStrip msg).length
    · simpa [streamStep, h1, h2] using hInv
    · rw [streamStep_valid_eq p fragsOf true msg sid? st h1 (Nat.not_lt.mp h2)]
      simp only [save_conversation_to_db, if_pos]
      exact inv_update st (hydrate st (effectiveSessionId sid?)).2 _ _ _
        (fun s hs => hydrate_cache_of_ne st _ s hs)
        (hydrate_cache_self st _ hInv) hInv

theorem inv_reset (sid : String) (st : St) (hInv : Inv st) : Inv (resetStep sid st) := by
  unfold resetStep
  cases hc : st.cache sid with
  | none => exact hInv
  | some conv =>
      intro s l hl
      by_cases hs : s = sid
      · subst hs; simp at hl
      · simp only [if_neg hs] at hl
        exact hInv s l hl

theorem inv_run (p : String) : ∀ (ops : List Op) (st : St),
    List.Forall opDbOk ops → Inv st → Inv (ops.foldl (applyOp p) st) := by
  intro ops
  induction ops with
  | nil => intro st _ hInv; exact hInv
  | cons op ops ih =>
      intro st hall hInv
      rw [List.forall_cons] at hall
      rw [List.foldl_cons]
      refine ih (applyOp p st op) hall.2 ?_
      cases op with
      | chat msg sid? gen dbOk =>
          have hdb : dbOk = true := hall.1
          subst hdb
          exact inv_chat p gen msg sid? st hInv
      | stream msg sid? fragsOf dbOk =>
          have hdb : dbOk = true := hall.1
          subst hdb
          exact inv_stream p fragsOf msg sid? st hInv
      | reset sid => exact inv_reset sid st hInv

end DanceChat

namespace DanceChat

/-- C7 (amended): at every state reachable by chat, stream and reset
operations in which every durable-store append succeeded, the last-10 window
of each session cache entry is empty or a suffix of that session turn
sequence in the durable store. -/
theorem c7_cache_window_suffix (p : String) (ops : List Op) (sid : String)
    (h : List.Forall opDbOk ops) : cacheWindowOk (runOps p ops) sid := by
  have hInv : Inv (runOps p ops) := inv_run p ops initSt h inv_init
  unfold cacheWindowOk windowOf
  cases hc : (runOps p ops).cache sid with
  | none => left; rfl
  | some l =>
      right
      simp only [Option.getD_some]
      exact (List.drop_suffix _ _).trans (hInv sid l hc)

/-- C7 witness: a concrete run of chat, reset and stream operations with all
store writes succeeding, for the session "s". -/
theorem c7_cache_window_suffix_witness :
    List.Forall opDbOk
        [Op.chat "hi" (some "s") (fun _ => "yo") true, Op.reset "s",
         Op.stream "yo?" (some "s") (fun _ => ["a", "b"]) true]
    ∧ cacheWindowOk
        (runOps "P"
          [Op.chat "hi" (some "s") (fun _ => "yo") true, Op.reset "s",
           Op.stream "yo?" (some "s") (fun _ => ["a", "b"]) true]) "s" := by
  constructor
  · exact ⟨rfl, trivial, rfl⟩
  · exact c7_cache_window_suffix "P" _ "s" ⟨rfl, trivial, rfl⟩

/-- C7 counterexample: one chat call whose store append fails leaves the
cache window of session "s" non-empty while the store has no rows for "s",
so the window is neither empty nor a suffix of the store sequence. -/
theorem c7_counterexample :
    ¬ cacheWindowOk (runOps "P" [Op.chat "hi" (some "s") (fun _ => "yo") false]) "s" := by
  intro h
  have hw : windowOf (runOps "P" [Op.chat "hi" (some "s") (fun _ => "yo") false]) "s"
      = [Turn.mk "hi" "yo"] := by decide
  have hs : sessionTurns (runOps "P" [Op.chat "hi" (some "s") (fun _ => "yo") false]).store "s"
      = [] := by decide
  rcases h with h | h
  · rw [hw] at h; exact absurd h (by decide)
  · rw [hw, hs] at h
    obtain ⟨u, hu⟩ := h
    simpa using congrArg List.length hu

end DanceChat

namespace DanceChat

/-- C9: the reset of a session cache entry is idempotent, and resetting a
session with no cache entry leaves the state unchanged. -/
theorem c9_reset_idempotent (st : St) (sid : String) :
    resetStep sid (resetStep sid st) = resetStep sid st
    ∧ (st.cache sid = none → resetStep sid st = st) := by
  constructor
  · unfold resetStep
    cases hc : st.cache sid with
    | none => rw [hc]
    | some conv => simp [hc]
  · intro h
    unfold resetStep
    rw [h]

/-- C9 witness: resetting the session "s" on the fresh state, which has no
cache entry for it, is a no-op. -/
theorem c9_reset_idempotent_witness :
    initSt.cache "s" = none ∧ resetStep "s" initSt = initSt :=
  ⟨rfl, (c9_reset_idempotent initSt "s").2 rfl⟩

/-- C10: a missing session id (pydantic default "default"), a JSON null and
the empty string are all mapped to the session id "default", and the chat
and stream endpoints behave identically on all three. -/
theorem c10_falsy_session_ids :
    effectiveSessionId none = "default"
    ∧ effectiveSessionId (some "") = "default"
    ∧ effectiveSessionId (some "default") = "default"
    ∧ (∀ (p : String) (gen : String → String) (db : Bool) (msg : String) (st : St),
        chatStep p gen db msg none st = chatStep p gen db msg (some "") st
        ∧ chatStep p gen db msg none st = chatStep p gen db msg (some "default") st)
    ∧ (∀ (p : String) (fragsOf : String → List String) (db : Bool) (msg : String) (st : St),
        streamStep p fragsOf db msg none st = streamStep p fragsOf db msg (some "") st
        ∧ streamStep p fragsOf db msg none st = streamStep p fragsOf db msg (some "default") st) := by
  refine ⟨rfl, by decide, by decide, ?_, ?_⟩
  · intro p gen db msg st
    exact ⟨chatStep_congr_sid p gen db msg none (some "") st (by decide),
      chatStep_congr_sid p gen db msg none (some "default") st (by decide)⟩
  · intro p fragsOf db msg st
    exact ⟨streamStep_congr_sid p fragsOf db msg none (some "") st (by decide),
      streamStep_congr_sid p fragsOf db msg none (some "default") st (by decide)⟩

/-- C5: list_recent with limit 10 returns exactly the last min(N,10) of the
N turns appended for the session, oldest-first, and the empty sequence when
the session has no turns. -/
theorem c5_list_recent (store : List Row) (sid : String) :
    get_conversation_history store sid 10
      = (sessionTurns store sid).drop ((sessionTurns store sid).length - 10)
    ∧ (get_conversation_history store sid 10).length
      = min (sessionTurns store sid).length 10
    ∧ (sessionTurns store sid = [] → get_conversation_history store sid 10 = []) := by
  refine ⟨gch_eq_drop store sid 10, ?_, ?_⟩
  · rw [gch_eq_drop store sid 10, List.length_drop]
    omega
  · intro h
    rw [gch_eq_drop store sid 10, h]
    rfl

/-- C5 witness: a concrete store with rows of two sessions; the session
"zzz" has no rows and gets the empty history. -/
theorem c5_list_recent_witness :
    sessionTurns [Row.mk "a" "u1" "b1", Row.mk "c" "u2" "b2"] "zzz" = []
    ∧ get_conversation_history [Row.mk "a" "u1" "b1", Row.mk "c" "u2" "b2"] "zzz" 10 = [] :=
  ⟨by decide, (c5_list_recent [Row.mk "a" "u1" "b1", Row.mk "c" "u2" "b2"] "zzz").2.2 (by decide)⟩

/-- C6: the prompt assembled from a persona, a cached history and the
current user message is the deterministic concatenation described by the
spec, the included window never exceeds ten turns, all turns are used when
at most ten exist, and the window is a suffix of the history. -/
theorem c6_prompt_assembly (p : String) (history : List Turn) (m : String) :
    buildContext p (last10 history) m = specPrompt p history m
    ∧ (last10 history).length ≤ 10
    ∧ (history.length ≤ 10 → last10 history = history)
    ∧ last10 history <:+ history
    ∧ (∀ (store : List Row) (sid : String),
        get_conversation_history store sid 10 = last10 (sessionTurns store sid)) := by
  refine ⟨?_, ?_, ?_, List.drop_suffix _ _, ?_⟩
  · unfold buildContext specPrompt
    rw [buildContext_eq_join]
  · unfold last10
    rw [List.length_drop]
    omega
  · intro h
    unfold last10
    have : history.length - 10 = 0 := by omega
    rw [this, List.drop_zero]
  · intro store sid
    exact gch_eq_drop store sid 10

/-- C6 witness: an eleven-turn history keeps only the last ten, and a
two-turn history is used in full. -/
theorem c6_prompt_assembly_witness :
    ([Turn.mk "u1" "b1", Turn.mk "u2" "b2"] : List Turn).length ≤ 10
    ∧ last10 [Turn.mk "u1" "b1", Turn.mk "u2" "b2"] = [Turn.mk "u1" "b1", Turn.mk "u2" "b2"] :=
  ⟨by decide, (c6_prompt_assembly "P" [Turn.mk "u1" "b1", Turn.mk "u2" "b2"] "m").2.2.1 (by decide)⟩

/-- C8 counterexample: when the character file exists but is empty, the
loader returns the empty string, so it does not always return a non-empty
string. -/
theorem c8_counterexample : load_character_prompt (ReadOutcome.ok "") = "" := rfl

/-- C8 (amended): the persona loader is total over every read outcome (the
embedding of: it never raises); it returns the file content verbatim on a
successful read (possibly empty), and the non-empty built-in default prompt
when the file is absent or the read fails. -/
theorem c8_persona_loader_total :
    (∀ c, load_character_prompt (ReadOutcome.ok c) = c)
    ∧ load_character_prompt ReadOutcome.fileNotFound = get_default_prompt
    ∧ (∀ e, load_character_prompt (ReadOutcome.readError e) = get_default_prompt)
    ∧ get_default_prompt ≠ "" :=
  ⟨fun _ => rfl, rfl, fun _ => rfl, by decide⟩

end DanceChat

namespace DanceChat

theorem streamLoop_go (frags : List String) :
    ∀ (evs : List SseEvent) (acc : String),
      frags.foldl
          (fun a c => if c = "" then a else (a.1 ++ [SseEvent.chunk c], a.2 ++ c))
          (evs, acc)
        = (evs ++ (frags.filter (fun c => !(c == ""))).map SseEvent.chunk,
           acc ++ String.join frags) := by
  induction frags with
  | nil => intro evs acc; simp [String.join]
  | cons c cs ih =>
      intro evs acc
      by_cases hc : c = ""
      · subst hc
        rw [List.foldl_cons, if_pos rfl, ih evs acc]
        simp [string_join_cons]
      · simp only [List.foldl_cons, if_neg hc]
        rw [ih (evs ++ [SseEvent.chunk c]) (acc ++ c)]
        simp [List.filter_cons, hc, string_join_cons, String.append_assoc]

theorem streamLoop_eq (frags : List String) :
    streamLoop frags
      = ((frags.filter (fun c => !(c == ""))).map SseEvent.chunk, String.join frags) := by
  unfold streamLoop
  rw [streamLoop_go frags [] ""]
  simp

/-- C1 evaluation (code bug): one chat on session "s" is persisted, the
session is reset, and the next chat re-hydrates the prior turn from the
durable store, so its prompt differs from the history-free prompt the claim
requires. -/
theorem c1_reset_then_chat_rehydrates :
    (chatStep "P" (fun c => c) true "m" (some "s")
        (resetStep "s" ((chatStep "P" (fun _ => "yo") true "hi" (some "s") initSt).2))).1
      = ChatResult.ok (buildContext "P" [Turn.mk "hi" "yo"] "m")
    ∧ buildContext "P" [Turn.mk "hi" "yo"] "m" ≠ buildContext "P" [] "m" := by
  decide

/-- C2 counterexample: on a fragment sequence containing an empty fragment
the stream emits no chunk event for it, so the claimed one-event-per-fragment
sequence is not produced. -/
theorem c2_counterexample :
    (streamStep "P" (fun _ => [""]) true "hello" none initSt).1
      ≠ claimedStreamEvents [""] := by
  decide

/-- C2 (amended): for a validated streaming request whose model call yields
the fragments, the endpoint emits one start event, then one chunk event per
non-empty fragment in arrival order, then one complete event whose full
message is the concatenation of all fragments. -/
theorem c2_stream_event_order (p : String) (fragsOf : String → List String) (db : Bool)
    (msg : String) (sid? : Option String) (st : St) (frags : List String)
    (h1 : pyStrip msg ≠ "") (h2 : (pyStrip msg).length ≤ 500)
    (hf : fragsOf (buildContext p (hydrate st (effectiveSessionId sid?)).1 (pyStrip msg))
        = frags) :
    (streamStep p fragsOf db msg sid? st).1
      = SseEvent.start :: (frags.filter (fun c => !(c == ""))).map SseEvent.chunk
          ++ [SseEvent.complete (String.join frags)] := by
  rw [streamStep_valid_eq p fragsOf db msg sid? st h1 h2]
  simp only [hf, streamLoop_eq]

/-- C2 witness: the fragments Hi and there from the spec example yield
exactly start, chunk, chunk, complete with the concatenated full message. -/
theorem c2_stream_event_order_witness :
    pyStrip "hello" ≠ "" ∧ (pyStrip "hello").length ≤ 500
    ∧ (streamStep "P" (fun _ => ["Hi", " there"]) true "hello" none initSt).1
        = [SseEvent.start, SseEvent.chunk "Hi", SseEvent.chunk " there",
           SseEvent.complete "Hi there"] :=
  ⟨by decide, by decide,
    (c2_stream_event_order "P" (fun _ => ["Hi", " there"]) true "hello" none initSt
        ["Hi", " there"] (by decide) (by decide) rfl).trans (by decide)⟩

/-- C3: a chat message that is empty after stripping, or longer than 500
characters, is rejected with HTTP 400 and neither cache nor store changes;
any other message passes validation. -/
theorem c3_validation (p : String) (gen : String → String) (db : Bool) (msg : String)
    (sid? : Option String) (st : St) :
    ((pyStrip msg = "" ∨ 500 < (pyStrip msg).length) →
      (chatStep p gen db msg sid? st).2 = st
      ∧ (chatStep p gen db msg sid? st).1.isBadRequest = true)
    ∧ (pyStrip msg ≠ "" → (pyStrip msg).length ≤ 500 →
      (chatStep p gen db msg sid? st).1.isBadRequest = false) := by
  constructor
  · rintro (h | h)
    · simp [chatStep, h, ChatResult.isBadRequest]
    · by_cases he : pyStrip msg = ""
      · simp [chatStep, he, ChatResult.isBadRequest]
      · simp [chatStep, he, h, ChatResult.isBadRequest]
  · intro h1 h2
    rw [chatStep_valid_eq p gen db msg sid? st h1 h2]
    rfl

set_option maxRecDepth 8000 in
/-- C3 witness: a whitespace-only message is rejected without mutation, a
501-character message is rejected, and a 500-character message passes
validation. -/
theorem c3_validation_witness :
    ((pyStrip " " = "" ∨ 500 < (pyStrip " ").length)
      ∧ (chatStep "P" (fun c => c) true " " none initSt).2 = initSt
      ∧ (chatStep "P" (fun c => c) true " " none initSt).1.isBadRequest = true)
    ∧ ((pyStrip (String.mk (List.replicate 501 'a')) = ""
          ∨ 500 < (pyStrip (String.mk (List.replicate 501 'a'))).length)
      ∧ (chatStep "P" (fun c => c) true (String.mk (List.replicate 501 'a'))
            none initSt).1.isBadRequest = true)
    ∧ (pyStrip (String.mk (List.replicate 500 'a')) ≠ ""
      ∧ (pyStrip (String.mk (List.replicate 500 'a'))).length ≤ 500
      ∧ (chatStep "P" (fun c => c) true (String.mk (List.replicate 500 'a'))
            none initSt).1.isBadRequest = false) :=
  ⟨⟨Or.inl (by decide),
    ((c3_validation "P" (fun c => c) true " " none initSt).1 (Or.inl (by decide))).1,
    ((c3_validation "P" (fun c => c) true " " none initSt).1 (Or.inl (by decide))).2⟩,
   ⟨Or.inr (by decide),
    ((c3_validation "P" (fun c => c) true (String.mk (List.replicate 501 'a')) none
        initSt).1 (Or.inr (by decide))).2⟩,
   by decide, by decide,
   (c3_validation "P" (fun c => c) true (String.mk (List.replicate 500 'a')) none
        initSt).2 (by decide) (by decide)⟩

/-- C4: on a validated chat whose store append fails, the response and the
cache update are the same as when the append succeeds, the store is left
unchanged, the response is success with the generated message, the new turn
is appended to the session cache entry, and the failed insert returns a null
row id. -/
theorem c4_store_failure_isolated (p : String) (gen : String → String) (msg : String)
    (sid? : Option String) (st : St)
    (h1 : pyStrip msg ≠ "") (h2 : (pyStrip msg).length ≤ 500) :
    (chatStep p gen false msg sid? st).1 = (chatStep p gen true msg sid? st).1
    ∧ (chatStep p gen false msg sid? st).2.cache = (chatStep p gen true msg sid? st).2.cache
    ∧ (chatStep p gen false msg sid? st).2.store = st.store
    ∧ (chatStep p gen false msg sid? st).1
        = ChatResult.ok (gen (buildContext p (hydrate st (effectiveSessionId sid?)).1 (pyStrip msg)))
    ∧ (chatStep p gen false msg sid? st).2.cache (effectiveSessionId sid?)
        = some ((((hydrate st (effectiveSessionId sid?)).2 (effectiveSessionId sid?)).getD [])
            ++ [Turn.mk (pyStrip msg)
                  (gen (buildContext p (hydrate st (effectiveSessionId sid?)).1 (pyStrip msg)))])
    ∧ (save_conversation_to_db false st.store (effectiveSessionId sid?) (pyStrip msg)
          (gen (buildContext p (hydrate st (effectiveSessionId sid?)).1 (pyStrip msg)))).1
        = none := by
  rw [chatStep_valid_eq p gen false msg sid? st h1 h2,
    chatStep_valid_eq p gen true msg sid? st h1 h2]
  refine ⟨rfl, rfl, by simp [save_conversation_to_db], rfl, ?_, rfl⟩
  simp [cacheAppend]

/-- C4 witness: a concrete chat on the fresh state with a failing store
append still answers with the generated message and leaves the store
empty. -/
theorem c4_store_failure_isolated_witness :
    pyStrip "hello" ≠ "" ∧ (pyStrip "hello").length ≤ 500
    ∧ (chatStep "P" (fun c => c) false "hello" none initSt).1
        = (chatStep "P" (fun c => c) true "hello" none initSt).1
    ∧ (chatStep "P" (fun c => c) false "hello" none initSt).2.store = initSt.store :=
  ⟨by decide, by decide,
    (c4_store_failure_isolated "P" (fun c => c) "hello" none initSt (by decide) (by decide)).1,
    (c4_store_failure_isolated "P" (fun c => c) "hello" none initSt (by decide) (by decide)).2.2.1⟩

end DanceChat
